import Mathlib

/-!
Verification of the Ithkuil grammar co-pilot validation core.

Shallow embedding of:
  * `src/validators/rule_extractor.py`   (`CaseConstraints`, `RuleExtractor`)
  * `src/validators/cooccurrence_rules.py` (`CooccurrenceRules`)
  * `src/validation_engine.py`           (`ValidationEngine`)

Conventions of the embedding:
  * Python `str` sets are finite, so they are modelled as `List String`
    with membership semantics; `dict` is an association list with
    last-write-wins insertion (`dictInsert`).
  * Python values reaching the `case` / `function` fields of the input
    JSON are modelled by the inductive `PyValue` covering the kinds the
    checks distinguish (`None`, `str`, `int`, `bool`); a missing key and
    a `None` value are identified, exactly as `dict.get` makes them.
  * Float confidences are exact literals compared against exact
    literals, so they are modelled as rationals.
  * The RAG retriever is an abstract deterministic lookup
    `String → Option RetrievedChunk` (fixed dataset, fixed collection).
  * The mutable `self.stats` dictionary is threaded explicitly:
    `ValidationEngine.validate` maps a `Stats` to a result paired with
    the updated `Stats`.
-/

namespace IthkuilCopilot

/-- Python truthiness-relevant values for the `case`/`function` fields.
`pynone` stands both for an absent key and for an explicit `None`,
since `semantic_json.get(...)` returns `None` in both situations. -/
inductive PyValue where
  | pynone
  | pystr (s : String)
  | pyint (n : Int)
  | pybool (b : Bool)
deriving DecidableEq, Repr

/-- Python truthiness: `None`, `""`, `0`, `False` are falsy. -/
def PyValue.truthy : PyValue → Bool
  | .pynone => false
  | .pystr s => !s.isEmpty
  | .pyint n => n != 0
  | .pybool b => b

/-- Model of `isinstance(v, str)`. -/
def PyValue.isStr : PyValue → Bool
  | .pystr _ => true
  | _ => false

/-- Model of `type(v).__name__`. -/
def PyValue.typeName : PyValue → String
  | .pynone => "NoneType"
  | .pystr _ => "str"
  | .pyint _ => "int"
  | .pybool _ => "bool"

/-- Value of `v` when it is a string (total accessor used after an `isStr` test). -/
def PyValue.asStr : PyValue → String
  | .pystr s => s
  | _ => ""

/-- Render an optional string the way a Python f-string renders the value
(`None` prints as `"None"`). -/
def pyShow : Option String → String
  | Option.none => "None"
  | some s => s

/-- Model of `sorted(...)` on a set of function abbreviations. -/
def sortedStrings (l : List String) : List String :=
  l.mergeSort (fun a b => !decide (b < a))

/-- Model of `', '.join(sorted(l))`. -/
def joinSorted (l : List String) : String :=
  String.intercalate ", " (sortedStrings l)

/-- Embedding of `rule_extractor.CaseConstraints` (dataclass).  `case_name` and
`case_abbrev` are `Option String` because `data.get('code')` and
`data.get('name', code)` can both produce `None`. -/
structure CaseConstraints where
  case_name : Option String
  case_abbrev : Option String
  semantic_role : String
  description : String
  allowed_functions : List String
  forbidden_functions : List String
deriving DecidableEq, Repr

/-- Embedding of `CaseConstraints.allows_function`: forbidden-set membership is checked
first, then non-membership in a non-empty allowed set. -/
def CaseConstraints.allows_function (c : CaseConstraints) (function : String) : Bool :=
  if !c.forbidden_functions.isEmpty && c.forbidden_functions.contains function then
    false
  else if !c.allowed_functions.isEmpty && !c.allowed_functions.contains function then
    false
  else
    true

/-- One entry of `RuleExtractor.ROLE_FUNCTION_RULES`. -/
structure RoleRule where
  allowed : List String
  forbidden : List String
deriving DecidableEq, Repr

/-- Embedding of `RuleExtractor.ROLE_FUNCTION_RULES`, the fixed semantic-role →
function-compatibility table. -/
def ROLE_FUNCTION_RULES : List (String × RoleRule) :=
  [ ("EXPERIENCER", ⟨["STA"], ["DYN", "MNF"]⟩),
    ("AGENT", ⟨["DYN", "MNF"], ["STA"]⟩),
    ("PATIENT", ⟨["STA", "DYN"], []⟩),
    ("AGENT+PATIENT", ⟨["STA", "DYN"], []⟩),
    ("INSTRUMENT", ⟨["DYN"], ["STA"]⟩),
    ("CONTENT", ⟨["STA", "DYN", "MNF"], []⟩),
    ("STIMULUS", ⟨["STA", "DYN"], []⟩),
    ("GOAL", ⟨["DYN", "MNF"], ["STA"]⟩),
    ("PURPOSE", ⟨["DYN", "MNF"], ["STA"]⟩),
    ("ENABLER", ⟨["DYN", "MNF"], []⟩),
    ("ACTIVATION", ⟨["DYN", "MNF"], []⟩),
    ("RECIPIENT", ⟨["DYN"], []⟩),
    ("ATTRIBUTE", ⟨["STA"], []⟩),
    ("POSSESSOR", ⟨["STA"], []⟩),
    ("OWNER", ⟨["STA"], []⟩),
    ("LOCATION", ⟨["STA", "DYN"], []⟩),
    ("ORIENTATION", ⟨["STA", "DYN"], []⟩),
    ("SOURCE", ⟨["STA", "DYN"], []⟩),
    ("PART", ⟨["STA", "DYN"], []⟩),
    ("CORRELATION", ⟨["STA", "DYN"], []⟩),
    ("DEPENDENT", ⟨["STA", "DYN"], []⟩),
    ("CONTINGENCY", ⟨["STA", "DYN"], []⟩) ]

/-- The permissive default passed to `ROLE_FUNCTION_RULES.get(role, ...)`:
allow all of STA/DYN/MNF, forbid none. -/
def defaultRoleRule : RoleRule := ⟨["STA", "DYN", "MNF"], []⟩

/-- Model of `ROLE_FUNCTION_RULES.get(semantic_role, default)`. -/
def roleRuleFor (semantic_role : String) : RoleRule :=
  (ROLE_FUNCTION_RULES.lookup semantic_role).getD defaultRoleRule

/-- A raw grammar-JSON entry as `extract_case_constraints` reads it:
every field is fetched with `dict.get`, so each is optional. -/
structure RawRecord where
  type : Option String := Option.none
  code : Option String := Option.none
  name : Option String := Option.none
  semantic_role : Option String := Option.none
  description : Option String := Option.none
deriving DecidableEq, Repr

/-- The constraint dictionary `mapping[code -> CaseConstraints]`; keys are
optional strings because `data.get('code')` may be `None`. -/
abbrev ConstraintMap := List (Option String × CaseConstraints)

/-- Assignment `constraints[code] = value` on a Python dict: replaces any previous
binding of the key. -/
def dictInsert (m : ConstraintMap) (k : Option String) (v : CaseConstraints) : ConstraintMap :=
  (k, v) :: m.filter (fun p => p.1 != k)

/-- The `CaseConstraints` built from one raw entry in
`RuleExtractor.extract_case_constraints`. -/
def constraintsOfRecord (case_data : RawRecord) : CaseConstraints :=
  let code := case_data.code
  let semantic_role := case_data.semantic_role.getD "UNKNOWN"
  let role_rules := roleRuleFor semantic_role
  { case_name := case_data.name.orElse (fun _ => code)
    case_abbrev := code
    semantic_role := semantic_role
    description := case_data.description.getD ""
    allowed_functions := role_rules.allowed
    forbidden_functions := role_rules.forbidden }

/-- Embedding of `RuleExtractor.extract_case_constraints`: filter the entries of type
`'case'`, then fill the dictionary in order (later records override
earlier ones with the same code). -/
def extract_case_constraints (raw_data : List RawRecord) : ConstraintMap :=
  let cases := raw_data.filter (fun item => item.type == some "case")
  cases.foldl (fun constraints case_data =>
    dictInsert constraints case_data.code (constraintsOfRecord case_data)) []

/-- Embedding of `RuleExtractor.validate_rules`, parameterised by the extracted map:
no record may have overlapping allowed/forbidden sets. -/
def validate_rules (constraints : ConstraintMap) : Bool :=
  constraints.all (fun p =>
    (p.2.allowed_functions.filter (p.2.forbidden_functions.contains ·)).isEmpty)

/-- Embedding of `CooccurrenceRules`: the constraint store wrapping the extracted map. -/
structure CooccurrenceRules where
  constraints : ConstraintMap
deriving DecidableEq, Repr

/-- The load-time consistency gate of `CooccurrenceRules.__init__`: wrap a
constraint map into a store only when `validate_rules` accepts it, raise
(`Except.error`, modelling the `ValueError`) otherwise. -/
def storeInitCheck (constraints : ConstraintMap) : Except String CooccurrenceRules :=
  if validate_rules constraints then
    Except.ok ⟨constraints⟩
  else
    Except.error "Inconsistent rules detected in grammar data"

/-- Embedding of `CooccurrenceRules.__init__`: extract, then validate on load, raising
(`Except.error`) on inconsistent rules before the store exists. -/
def mkCooccurrenceRules (raw_data : List RawRecord) : Except String CooccurrenceRules :=
  storeInitCheck (extract_case_constraints raw_data)

/-- Embedding of `CooccurrenceRules.get_allowed_functions`. -/
def CooccurrenceRules.get_allowed_functions (rules : CooccurrenceRules) (case_code : String) : List String :=
  match rules.constraints.lookup (some case_code) with
  | Option.none => ["STA", "DYN", "MNF"]
  | some c => c.allowed_functions

/-- The rejection message built inside `check_case_function`. -/
def checkFailureMessage (case_code function : String) (constraint : CaseConstraints) : String :=
  let base := case_code ++ " (" ++ pyShow constraint.case_name ++ ") cannot co-occur with "
    ++ function ++ " function. Semantic role: " ++ constraint.semantic_role ++ ". "
  let withAllowed :=
    if !constraint.allowed_functions.isEmpty then
      base ++ "Allowed: " ++ joinSorted constraint.allowed_functions ++ ". "
    else base
  if !constraint.forbidden_functions.isEmpty then
    withAllowed ++ "Forbidden: " ++ joinSorted constraint.forbidden_functions ++ "."
  else withAllowed

/-- Embedding of `CooccurrenceRules.check_case_function`: unknown case fails open;
a known case consults `allows_function` and reports a message on failure. -/
def CooccurrenceRules.check_case_function (rules : CooccurrenceRules)
    (case_code function : String) : Bool × Option String :=
  match rules.constraints.lookup (some case_code) with
  | Option.none => (true, Option.none)
  | some constraint =>
    if !constraint.allows_function function then
      (false, some (checkFailureMessage case_code function constraint))
    else
      (true, Option.none)

/-- The float literal `0.95` as an exact rational, given in normalised
form so that the kernel can evaluate comparisons. -/
def conf95 : ℚ := ⟨19, 20, by norm_num, by norm_num⟩

/-- The float literal `0.90` as an exact rational. -/
def conf90 : ℚ := ⟨9, 10, by norm_num, by norm_num⟩

/-- The float literal `0.70` as an exact rational. -/
def conf70 : ℚ := ⟨7, 10, by norm_num, by norm_num⟩

/-- The decision threshold `0.85` as an exact rational. -/
def confThreshold : ℚ := ⟨17, 20, by norm_num, by norm_num⟩

/-- Embedding of `validation_engine.ValidationLevel`. -/
inductive ValidationLevel where
  | STRUCTURE
  | COHERENCE
  | SEMANTIC
deriving DecidableEq, Repr

/-- Embedding of `validation_engine.ValidationError` (dataclass). -/
structure ValidationError where
  level : ValidationLevel
  message : String
  slot : Option String := Option.none
  suggestion : Option String := Option.none
deriving DecidableEq, Repr

/-- Embedding of `validation_engine.ValidationResult` (dataclass); confidence is the
exact rational value of the float literal the code assigns. -/
structure ValidationResult where
  passed : Bool
  confidence : ℚ
  errors : List ValidationError
  citations : List String
  needs_clarification : Bool := false
deriving DecidableEq, Repr

/-- The candidate input: the two fields `validate` reads from the
semantic JSON, as fetched by `dict.get` (missing key ≡ `None`).
Extra fields are never read, so they are not part of the model. -/
structure SemanticJson where
  «case» : PyValue := PyValue.pynone
  function : PyValue := PyValue.pynone
deriving DecidableEq, Repr

/-- A chunk returned by `RAGSystem.retrieve_for_case`. -/
structure RetrievedChunk where
  case_name : String
  semantic_role : String
  description : String
  citation : String
deriving DecidableEq, Repr

/-- The dictionary `_validate_semantic` returns. -/
structure SemanticStageResult where
  errors : List ValidationError
  confidence : ℚ
  citations : List String
deriving DecidableEq, Repr

/-- The `self.stats` dictionary of `ValidationEngine`. -/
structure Stats where
  total_validations : Nat := 0
  passed : Nat := 0
  rejected : Nat := 0
  clarification_needed : Nat := 0
deriving DecidableEq, Repr

/-- The immutable part of a loaded `ValidationEngine`: the constraint
store (if a grammar file loaded) and the RAG retriever modelled as a
deterministic per-case lookup (if RAG initialised). -/
structure ValidationEngine where
  cooccurrence_rules : Option CooccurrenceRules
  rag : Option (String → Option RetrievedChunk)

/-- Embedding of `ValidationEngine._validate_structure`: placeholder, returns no
errors. -/
def validate_structure (_semantic_json : SemanticJson) : List ValidationError := []

/-- The TYPE error appended when `case` is present, truthy and not a
string. -/
def caseTypeError (v : PyValue) : ValidationError :=
  { level := ValidationLevel.COHERENCE
    message := "Case must be a string, got " ++ v.typeName
    slot := some "case"
    suggestion := some "Use a 3-letter case code like AFF, ERG, ABS" }

/-- The TYPE error appended when `function` is present, truthy and not a
string. -/
def functionTypeError (v : PyValue) : ValidationError :=
  { level := ValidationLevel.COHERENCE
    message := "Function must be a string, got " ++ v.typeName
    slot := some "function"
    suggestion := some "Use STA for states or DYN for actions" }

/-- The ENUM error for a function outside `{STA, DYN, MNF}`. -/
def functionEnumError (f : String) : ValidationError :=
  { level := ValidationLevel.COHERENCE
    message := "Invalid function '" ++ f ++ "'. Must be one of: " ++
      joinSorted ["STA", "DYN", "MNF"]
    slot := some "function"
    suggestion := some "Use STA for states or DYN for actions" }

/-- The FORMAT error for a case code that is not three uppercase
letters. -/
def caseFormatError (c : String) : ValidationError :=
  { level := ValidationLevel.COHERENCE
    message := "Invalid case format '" ++ c ++
      "'. Cases are 3-letter uppercase codes like AFF, ERG, ABS"
    slot := some "case"
    suggestion := some "Use a valid case code" }

/-- Model of `len(case) == 3 and case.isupper() and case.isalpha()`, for the
ASCII codes the system manipulates: three characters, each an uppercase
letter. -/
def case_format_ok (s : String) : Bool :=
  s.length == 3 && s.toList.all (fun ch => ch.isUpper && ch.isAlpha)

/-- Embedding of `ValidationEngine._validate_coherence`: presence/truthiness check,
type checks, function enumeration check, case format check, then the
constraint-store lookup — each failing stage returns immediately with
its single error. -/
def validate_coherence (cooccurrence_rules : Option CooccurrenceRules)
    (semantic_json : SemanticJson) : List ValidationError :=
  let c := semantic_json.«case»
  let f := semantic_json.function
  if !c.truthy || !f.truthy then []
  else if !c.isStr then [caseTypeError c]
  else if !f.isStr then [functionTypeError f]
  else
    let cs := c.asStr
    let fs := f.asStr
    if !(["STA", "DYN", "MNF"].contains fs) then [functionEnumError fs]
    else if !case_format_ok cs then [caseFormatError cs]
    else
      match cooccurrence_rules with
      | Option.none => []
      | some rules =>
        if (rules.constraints.lookup (some cs)).isSome then
          match rules.check_case_function cs fs with
          | (true, _) => []
          | (false, error_msg) =>
            [{ level := ValidationLevel.COHERENCE
               message := error_msg.getD ""
               slot := some "case+function"
               suggestion := some ("Try one of: " ++
                 joinSorted (rules.get_allowed_functions cs)) }]
        else []

/-- Embedding of `ValidationEngine._validate_semantic`: RAG grounding.  With a
retriever and a truthy string case, a hit yields confidence 0.95 and two
citations, a miss 0.70 with a warning citation; without RAG (or a
non-string / falsy case) the fallback is 0.90 with a generic citation. -/
def validate_semantic (rag : Option (String → Option RetrievedChunk))
    (semantic_json : SemanticJson) : SemanticStageResult :=
  let c := semantic_json.«case»
  match rag with
  | some retrieve =>
    if c.truthy && c.isStr then
      match retrieve c.asStr with
      | some result =>
        { errors := []
          confidence := conf95
          citations := [result.citation,
            result.case_name ++ " (" ++ result.semantic_role ++ "): " ++
              result.description.take 100 ++ "..."] }
      | Option.none =>
        { errors := []
          confidence := conf70
          citations := ["Warning: Case " ++ c.asStr ++ " not found in grammar database"] }
    else
      { errors := [], confidence := conf90, citations := ["Grammar §7 (Cases)"] }
  | Option.none =>
    { errors := [], confidence := conf90, citations := ["Grammar §7 (Cases)"] }

/-- Embedding of `ValidationEngine.validate`, with the mutation of `self.stats` made
explicit: takes the stats before the call and returns the verdict
together with the stats after the call. -/
def ValidationEngine.validate (engine : ValidationEngine) (stats : Stats)
    (semantic_json : SemanticJson) : ValidationResult × Stats :=
  let stats := { stats with total_validations := stats.total_validations + 1 }
  let structure_errors := validate_structure semantic_json
  if !structure_errors.isEmpty then
    (⟨false, 0, structure_errors, [], false⟩,
     { stats with rejected := stats.rejected + 1 })
  else
    let coherence_errors := validate_coherence engine.cooccurrence_rules semantic_json
    if !coherence_errors.isEmpty then
      (⟨false, 0, structure_errors ++ coherence_errors, [], false⟩,
       { stats with rejected := stats.rejected + 1 })
    else
      let semantic_result := validate_semantic engine.rag semantic_json
      let errors := structure_errors ++ coherence_errors ++ semantic_result.errors
      let confidence := semantic_result.confidence
      let citations := semantic_result.citations
      if !errors.isEmpty then
        (⟨false, confidence, errors, citations, false⟩,
         { stats with rejected := stats.rejected + 1 })
      else if confidence < confThreshold then
        (⟨true, confidence, [], citations, true⟩,
         { stats with clarification_needed := stats.clarification_needed + 1,
                      passed := stats.passed + 1 })
      else
        (⟨true, confidence, [], citations, false⟩,
         { stats with passed := stats.passed + 1 })

/-- Shape invariant of every extracted constraint record: its allowed and
forbidden sets are exactly those the role→function table assigns to its
stored semantic role. -/
def ConstraintShape (c : CaseConstraints) : Prop :=
  c.allowed_functions = (roleRuleFor c.semantic_role).allowed ∧
  c.forbidden_functions = (roleRuleFor c.semantic_role).forbidden

/-- A concrete raw case entry (the AFF case of the grammar dataset),
used to instantiate universally quantified theorems. -/
def affRecord : RawRecord :=
  { type := some "case", code := some "AFF", name := some "Affective",
    semantic_role := some "EXPERIENCER",
    description := some "unwilled experience or emotion" }

/-- The constraint record extraction derives from `affRecord`. -/
def affConstraint : CaseConstraints := constraintsOfRecord affRecord

/-- A constraint store loaded from the one-record AFF dataset. -/
def demoStore : CooccurrenceRules := ⟨extract_case_constraints [affRecord]⟩

/-- An engine whose store knows AFF and whose retriever misses every
case code (an empty RAG collection). -/
def missEngine : ValidationEngine :=
  ⟨some demoStore, some (fun _ => Option.none)⟩

/-- An engine running without a grammar file: no store, no RAG
(the fallback configuration of `ValidationEngine.__init__`). -/
def fallbackEngine : ValidationEngine := ⟨Option.none, Option.none⟩

/-- A deliberately inconsistent constraint record (STA both allowed and
forbidden); no extraction produces it, but the load-time check must
reject any store containing one. -/
def badConstraint : CaseConstraints :=
  { case_name := some "Broken", case_abbrev := some "BAD",
    semantic_role := "BROKEN", description := "",
    allowed_functions := ["STA"], forbidden_functions := ["STA"] }

/-! ### Helper lemmas -/

theorem mem_of_lookup_eq_some {α β : Type} [BEq α] [LawfulBEq α]
    {l : List (α × β)} {k : α} {v : β} (h : l.lookup k = some v) : (k, v) ∈ l := by
  induction l with
  | nil => simp [List.lookup] at h
  | cons p t ih =>
    obtain ⟨a, b⟩ := p
    rw [List.lookup] at h
    split at h
    · next heq =>
      obtain rfl : b = v := by injection h
      exact List.mem_cons.mpr (Or.inl (by rw [eq_of_beq heq]))
    · exact List.mem_cons.mpr (Or.inr (ih h))

theorem constraintsOfRecord_shape (r : RawRecord) : ConstraintShape (constraintsOfRecord r) :=
  ⟨rfl, rfl⟩

theorem extract_shape_aux (l : List RawRecord) (acc : ConstraintMap)
    (hacc : ∀ p ∈ acc, ConstraintShape p.2) :
    ∀ p ∈ l.foldl (fun constraints case_data =>
        dictInsert constraints case_data.code (constraintsOfRecord case_data)) acc,
      ConstraintShape p.2 := by
  induction l generalizing acc with
  | nil => exact hacc
  | cons r t ih =>
    refine ih _ ?_
    intro p hp
    rcases List.mem_cons.mp hp with hhd | htl
    · subst hhd; exact constraintsOfRecord_shape r
    · exact hacc p (List.mem_of_mem_filter htl)

/-- Every constraint record produced by extraction carries exactly the
allowed/forbidden sets its stored semantic role maps to. -/
theorem extract_shape (d : List RawRecord) :
    ∀ p ∈ extract_case_constraints d, ConstraintShape p.2 := by
  have h := extract_shape_aux (d.filter fun item => item.type == some "case") []
    (by intro p hp; simp at hp)
  simpa [extract_case_constraints] using h

/-- Every row of the fixed role→function table, and the permissive
default, has disjoint allowed and forbidden sets. -/
theorem roleRuleFor_disjoint (role : String) :
    ∀ f ∈ (roleRuleFor role).allowed, f ∉ (roleRuleFor role).forbidden := by
  unfold roleRuleFor
  cases h : ROLE_FUNCTION_RULES.lookup role with
  | none => simp [defaultRoleRule]
  | some r =>
    have hmem : (role, r) ∈ ROLE_FUNCTION_RULES := mem_of_lookup_eq_some h
    have hall : ∀ p ∈ ROLE_FUNCTION_RULES, ∀ f ∈ p.2.allowed, f ∉ p.2.forbidden := by decide
    simpa using hall _ hmem

/-- The semantic (RAG) stage never contributes an error. -/
theorem validate_semantic_errors (rag : Option (String → Option RetrievedChunk))
    (j : SemanticJson) : (validate_semantic rag j).errors = [] := by
  unfold validate_semantic
  cases rag with
  | none => rfl
  | some retrieve =>
    dsimp only
    split
    · cases retrieve j.«case».asStr <;> rfl
    · rfl

/-- Behaviour of `validate` when the coherence stage rejects. -/
theorem validate_reject (engine : ValidationEngine) (stats : Stats) (j : SemanticJson)
    (h : validate_coherence engine.cooccurrence_rules j ≠ []) :
    engine.validate stats j =
      (⟨false, 0, validate_coherence engine.cooccurrence_rules j, [], false⟩,
       { stats with total_validations := stats.total_validations + 1,
                    rejected := stats.rejected + 1 }) := by
  unfold ValidationEngine.validate
  simp [validate_structure, h]

/-- Behaviour of `validate` when coherence passes and the semantic-stage
confidence is below the threshold. -/
theorem validate_pass_clarify (engine : ValidationEngine) (stats : Stats) (j : SemanticJson)
    (h : validate_coherence engine.cooccurrence_rules j = [])
    (hconf : (validate_semantic engine.rag j).confidence < confThreshold) :
    engine.validate stats j =
      (⟨true, (validate_semantic engine.rag j).confidence, [],
        (validate_semantic engine.rag j).citations, true⟩,
       { stats with total_validations := stats.total_validations + 1,
                    passed := stats.passed + 1,
                    clarification_needed := stats.clarification_needed + 1 }) := by
  unfold ValidationEngine.validate
  simp [validate_structure, h, validate_semantic_errors, hconf]

/-- Behaviour of `validate` when coherence passes and the semantic-stage
confidence reaches the threshold. -/
theorem validate_pass (engine : ValidationEngine) (stats : Stats) (j : SemanticJson)
    (h : validate_coherence engine.cooccurrence_rules j = [])
    (hconf : ¬ (validate_semantic engine.rag j).confidence < confThreshold) :
    engine.validate stats j =
      (⟨true, (validate_semantic engine.rag j).confidence, [],
        (validate_semantic engine.rag j).citations, false⟩,
       { stats with total_validations := stats.total_validations + 1,
                    passed := stats.passed + 1 }) := by
  unfold ValidationEngine.validate
  simp [validate_structure, h, validate_semantic_errors, hconf]

theorem isEmpty_false_of_ne {s : String} (h : s ≠ "") : s.isEmpty = false := by
  rw [Bool.eq_false_iff]
  simpa [String.isEmpty_iff] using h

theorem pystr_truthy {s : String} (h : s ≠ "") : (PyValue.pystr s).truthy = true := by
  simp [PyValue.truthy, isEmpty_false_of_ne h]

theorem STA_isEmpty : ("STA" : String).isEmpty = false := by decide

theorem DYN_isEmpty : ("DYN" : String).isEmpty = false := by decide

theorem MNF_isEmpty : ("MNF" : String).isEmpty = false := by decide

/-- The coherence stage reports nothing when `case` or `function` is
absent, `None` or otherwise falsy. -/
theorem validate_coherence_skip (r : Option CooccurrenceRules) (j : SemanticJson)
    (h : j.«case».truthy = false ∨ j.function.truthy = false) :
    validate_coherence r j = [] := by
  unfold validate_coherence
  rcases h with h | h <;> simp [h]

/-- A truthy non-string `case` short-circuits with its type error, whatever
the `function` field holds. -/
theorem validate_coherence_case_type (r : Option CooccurrenceRules) (j : SemanticJson)
    (hc : j.«case».truthy = true) (hf : j.function.truthy = true)
    (hcs : j.«case».isStr = false) :
    validate_coherence r j = [caseTypeError j.«case»] := by
  unfold validate_coherence
  simp [hc, hf, hcs]

/-- With a truthy string `case`, a truthy non-string `function`
short-circuits with its type error. -/
theorem validate_coherence_function_type (r : Option CooccurrenceRules) (j : SemanticJson)
    (hc : j.«case».truthy = true) (hf : j.function.truthy = true)
    (hcs : j.«case».isStr = true) (hfs : j.function.isStr = false) :
    validate_coherence r j = [functionTypeError j.function] := by
  unfold validate_coherence
  simp [hc, hf, hcs, hfs]

/-- With both fields truthy strings, a function outside {STA, DYN, MNF}
short-circuits with the enumeration error, whatever the case looks like. -/
theorem validate_coherence_enum (r : Option CooccurrenceRules) (j : SemanticJson)
    (c f : String) (hc : j.«case» = PyValue.pystr c) (hf : j.function = PyValue.pystr f)
    (hcne : c ≠ "") (hfne : f ≠ "") (hmem : f ∉ ["STA", "DYN", "MNF"]) :
    validate_coherence r j = [functionEnumError f] := by
  simp only [List.mem_cons, List.not_mem_nil, or_false, not_or] at hmem
  obtain ⟨h1, h2, h3⟩ := hmem
  unfold validate_coherence
  simp [hc, hf, pystr_truthy hcne, pystr_truthy hfne, PyValue.isStr, PyValue.asStr, h1, h2, h3]

/-- With both fields truthy strings and a valid function, an ill-formed
case code short-circuits with the format error. -/
theorem validate_coherence_format (r : Option CooccurrenceRules) (j : SemanticJson)
    (c f : String) (hc : j.«case» = PyValue.pystr c) (hf : j.function = PyValue.pystr f)
    (hcne : c ≠ "") (hmem : f ∈ ["STA", "DYN", "MNF"]) (hfmt : case_format_ok c = false) :
    validate_coherence r j = [caseFormatError c] := by
  simp only [List.mem_cons, List.not_mem_nil, or_false] at hmem
  unfold validate_coherence
  rcases hmem with rfl | rfl | rfl <;>
    simp [hc, hf, PyValue.truthy, PyValue.isStr, PyValue.asStr, hfmt,
      isEmpty_false_of_ne hcne, STA_isEmpty, DYN_isEmpty, MNF_isEmpty]

theorem case_format_ok_ne_empty {c : String} (h : case_format_ok c = true) : c ≠ "" := by
  rintro rfl
  simp [case_format_ok] at h

/-- With all structural stages passed and a loaded store that knows the
case, the coherence stage reports nothing exactly when `allows_function`
accepts the pair. -/
theorem validate_coherence_lookup (rules : CooccurrenceRules) (j : SemanticJson)
    (c f : String) (con : CaseConstraints)
    (hc : j.«case» = PyValue.pystr c) (hf : j.function = PyValue.pystr f)
    (hmem : f ∈ ["STA", "DYN", "MNF"]) (hfmt : case_format_ok c = true)
    (hlook : rules.constraints.lookup (some c) = some con) :
    validate_coherence (some rules) j =
      (if con.allows_function f then []
       else [{ level := ValidationLevel.COHERENCE
               message := checkFailureMessage c f con
               slot := some "case+function"
               suggestion := some ("Try one of: " ++
                 joinSorted (rules.get_allowed_functions c)) }]) := by
  have hcne : c ≠ "" := case_format_ok_ne_empty hfmt
  simp only [List.mem_cons, List.not_mem_nil, or_false] at hmem
  unfold validate_coherence CooccurrenceRules.check_case_function
  cases hall : con.allows_function f <;>
    rcases hmem with rfl | rfl | rfl <;>
    simp [hc, hf, PyValue.truthy, PyValue.isStr, PyValue.asStr, hfmt, hlook, hall,
      isEmpty_false_of_ne hcne, STA_isEmpty, DYN_isEmpty, MNF_isEmpty]

/-- The coherence stage reports at most one error. -/
theorem validate_coherence_length (r : Option CooccurrenceRules) (j : SemanticJson) :
    (validate_coherence r j).length ≤ 1 := by
  unfold validate_coherence
  cases r with
  | none => dsimp only; split_ifs <;> simp
  | some rules =>
    dsimp only
    split_ifs <;> try simp
    split <;> simp

theorem allows_function_eq_false (con : CaseConstraints) (f : String) :
    con.allows_function f = false ↔
      f ∈ con.forbidden_functions ∨
        (con.allowed_functions ≠ [] ∧ f ∉ con.allowed_functions) := by
  obtain ⟨n, a, r, d, allowed, forbidden⟩ := con
  simp only [CaseConstraints.allows_function]
  by_cases hf : f ∈ forbidden <;> by_cases ha : allowed = [] <;>
    by_cases hfa : f ∈ allowed <;>
    simp_all [List.isEmpty_iff] <;>
    exact List.ne_nil_of_mem hf

/-- Confidence of `validate` when its errors are empty: the semantic
stage's value, unchanged. -/
theorem validate_errors_eq (engine : ValidationEngine) (stats : Stats) (j : SemanticJson) :
    (engine.validate stats j).1.errors = validate_coherence engine.cooccurrence_rules j := by
  by_cases hc : validate_coherence engine.cooccurrence_rules j = []
  · by_cases hconf : (validate_semantic engine.rag j).confidence < confThreshold
    · rw [validate_pass_clarify _ _ _ hc hconf, hc]
    · rw [validate_pass _ _ _ hc hconf, hc]
  · rw [validate_reject _ _ _ hc]

theorem roleRuleFor_EXPERIENCER : roleRuleFor "EXPERIENCER" = ⟨["STA"], ["DYN", "MNF"]⟩ := by
  decide

theorem roleRuleFor_UNKNOWN : roleRuleFor "UNKNOWN" = ⟨["STA", "DYN", "MNF"], []⟩ := by
  decide

/-! ### Claims -/

/-- C1: for every case code and function, `check_case_function` answers
valid (`true`) when the code is not in the constraint mapping; for a known
code it answers `false` iff the function is in the record's forbidden set,
or the record's allowed set is non-empty and the function is not in it. -/
theorem claim1_check_case_function_spec (rules : CooccurrenceRules) (case_code function : String) :
    (rules.constraints.lookup (some case_code) = Option.none →
      (rules.check_case_function case_code function).1 = true)
  ∧ (∀ con, rules.constraints.lookup (some case_code) = some con →
      ((rules.check_case_function case_code function).1 = false ↔
        (function ∈ con.forbidden_functions ∨
          (con.allowed_functions ≠ [] ∧ function ∉ con.allowed_functions)))) := by
  constructor
  · intro h
    simp [CooccurrenceRules.check_case_function, h]
  · intro con h
    rw [CooccurrenceRules.check_case_function, h]
    rw [← allows_function_eq_false con function]
    cases hall : con.allows_function function <;> simp [hall]

/-- C1 witness: in the store loaded from the AFF dataset, AFF (an
EXPERIENCER case) rejects the DYN function. -/
theorem claim1_witness : (demoStore.check_case_function "AFF" "DYN").1 = false :=
  ((claim1_check_case_function_spec demoStore "AFF" "DYN").2 affConstraint
    (by decide)).mpr (Or.inl (by decide))

/-- C5 counterexample: extraction of the empty dataset does not fail with
a `ConfigurationError` (no such exception exists in the code); it silently
returns the empty constraint mapping. -/
theorem claim5_counterexample : extract_case_constraints [] = [] := rfl

/-- C5 as amended: extraction performs no input validation.  The empty
dataset yields the empty mapping, and a `'case'`-typed record missing all
of `code`, `name` and `semantic_role` is still processed: the role
defaults to `UNKNOWN` with the permissive allow-all rule, the name
defaults to the (possibly missing) code, and no error is raised. -/
theorem claim5_amended_no_validation :
    extract_case_constraints [] = []
  ∧ (∀ r : RawRecord, r.type = some "case" → r.semantic_role = Option.none →
      (extract_case_constraints [r]).lookup r.code =
        some { case_name := r.name.orElse (fun _ => r.code)
               case_abbrev := r.code
               semantic_role := "UNKNOWN"
               description := r.description.getD ""
               allowed_functions := ["STA", "DYN", "MNF"]
               forbidden_functions := [] }) := by
  refine ⟨rfl, ?_⟩
  intro r htype hrole
  have hrule := roleRuleFor_UNKNOWN
  simp [extract_case_constraints, htype, dictInsert, constraintsOfRecord, hrole, hrule,
    List.lookup]

/-- C5 witness: the record carrying only `type = 'case'` extracts to a
permissive constraint keyed by the missing code. -/
theorem claim5_witness :
    (extract_case_constraints [({ type := some "case" } : RawRecord)]).lookup Option.none =
      some { case_name := Option.none, case_abbrev := Option.none,
             semantic_role := "UNKNOWN", description := "",
             allowed_functions := ["STA", "DYN", "MNF"], forbidden_functions := [] } := by
  have h := claim5_amended_no_validation.2 { type := some "case" } rfl rfl
  simpa using h

/-- C6: every record produced by extraction has disjoint allowed and
forbidden sets; and any constraint map containing a record with a
non-empty intersection makes the store constructor raise before the
store exists. -/
theorem claim6_load_time_invariant (d : List RawRecord) :
    (∀ p ∈ extract_case_constraints d,
      ∀ f ∈ p.2.allowed_functions, f ∉ p.2.forbidden_functions)
  ∧ (∀ cs : ConstraintMap,
      (∃ p ∈ cs, ∃ f ∈ p.2.allowed_functions, f ∈ p.2.forbidden_functions) →
      storeInitCheck cs = Except.error "Inconsistent rules detected in grammar data") := by
  constructor
  · intro p hp f hf
    obtain ⟨ha, hb⟩ := extract_shape d p hp
    rw [hb]
    rw [ha] at hf
    exact roleRuleFor_disjoint _ f hf
  · rintro cs ⟨p, hp, f, hfa, hff⟩
    have hval : validate_rules cs = false := by
      rw [Bool.eq_false_iff]
      intro htrue
      unfold validate_rules at htrue
      rw [List.all_eq_true] at htrue
      have hempty := htrue p hp
      have hmemf : f ∈ p.2.allowed_functions.filter (p.2.forbidden_functions.contains ·) :=
        List.mem_filter.mpr ⟨hfa, by simpa using hff⟩
      rw [List.isEmpty_iff] at hempty
      rw [hempty] at hmemf
      simp at hmemf
    simp [storeInitCheck, hval]

/-- C6 witness: the AFF dataset's extracted record is disjoint on a
concrete function, and a store seeded with an overlapping record is
rejected at load time. -/
theorem claim6_witness :
    "STA" ∉ affConstraint.forbidden_functions
  ∧ storeInitCheck [(some "BAD", badConstraint)] =
      Except.error "Inconsistent rules detected in grammar data" :=
  ⟨(claim6_load_time_invariant [affRecord]).1 (some "AFF", affConstraint) (by decide)
      "STA" (by decide),
   (claim6_load_time_invariant []).2 [(some "BAD", badConstraint)]
      ⟨(some "BAD", badConstraint), by decide, "STA", by decide, by decide⟩⟩

/-- C9: the verdict returned by `validate` does not depend on the
statistics state the call starts from, so two calls with the same input
on the same loaded engine (the second seeing the mutated counters of the
first) return identical verdicts: same passed, errors, confidence,
citations and needs_clarification. -/
theorem claim9_validate_deterministic (engine : ValidationEngine) (s1 s2 : Stats)
    (j : SemanticJson) :
    (engine.validate s1 j).1 = (engine.validate s2 j).1 := by
  by_cases hc : validate_coherence engine.cooccurrence_rules j = []
  · by_cases hconf : (validate_semantic engine.rag j).confidence < confThreshold
    · rw [validate_pass_clarify _ _ _ hc hconf, validate_pass_clarify _ _ _ hc hconf]
    · rw [validate_pass _ _ _ hc hconf, validate_pass _ _ _ hc hconf]
  · rw [validate_reject _ _ _ hc, validate_reject _ _ _ hc]

/-- C10: a failing verdict always carries confidence exactly 0, an empty
citation list, and `needs_clarification = false` — every rejection comes
from the structure/coherence early returns and the semantic stage never
produces errors. -/
theorem claim10_rejected_verdict_shape (engine : ValidationEngine) (stats : Stats)
    (j : SemanticJson) (h : (engine.validate stats j).1.passed = false) :
    (engine.validate stats j).1.confidence = 0
  ∧ (engine.validate stats j).1.citations = []
  ∧ (engine.validate stats j).1.needs_clarification = false := by
  by_cases hc : validate_coherence engine.cooccurrence_rules j = []
  · by_cases hconf : (validate_semantic engine.rag j).confidence < confThreshold
    · rw [validate_pass_clarify _ _ _ hc hconf] at h
      simp at h
    · rw [validate_pass _ _ _ hc hconf] at h
      simp at h
  · rw [validate_reject _ _ _ hc]
    exact ⟨rfl, rfl, rfl⟩

/-- C10 witness: the rejected AFF+DYN verdict has zero confidence, no
citations, and no clarification flag. -/
theorem claim10_witness :
    (missEngine.validate ⟨0, 0, 0, 0⟩
        ⟨PyValue.pystr "AFF", PyValue.pystr "DYN"⟩).1.confidence = 0
  ∧ (missEngine.validate ⟨0, 0, 0, 0⟩
        ⟨PyValue.pystr "AFF", PyValue.pystr "DYN"⟩).1.citations = []
  ∧ (missEngine.validate ⟨0, 0, 0, 0⟩
        ⟨PyValue.pystr "AFF", PyValue.pystr "DYN"⟩).1.needs_clarification = false :=
  claim10_rejected_verdict_shape missEngine ⟨0, 0, 0, 0⟩
    ⟨PyValue.pystr "AFF", PyValue.pystr "DYN"⟩ (by decide)

/-- C2: final verdict policy — any accumulated error gives
`passed = false`; with no errors and a semantic-stage confidence at or
above 0.85, the verdict passes without clarification; with no errors and
a confidence below 0.85, it passes flagged for clarification. -/
theorem claim2_final_verdict_policy (engine : ValidationEngine) (stats : Stats)
    (j : SemanticJson) :
    ((engine.validate stats j).1.errors ≠ [] → (engine.validate stats j).1.passed = false)
  ∧ ((engine.validate stats j).1.errors = [] →
      confThreshold ≤ (validate_semantic engine.rag j).confidence →
      (engine.validate stats j).1.passed = true ∧
      (engine.validate stats j).1.needs_clarification = false)
  ∧ ((engine.validate stats j).1.errors = [] →
      (validate_semantic engine.rag j).confidence < confThreshold →
      (engine.validate stats j).1.passed = true ∧
      (engine.validate stats j).1.needs_clarification = true) := by
  by_cases hc : validate_coherence engine.cooccurrence_rules j = []
  · by_cases hconf : (validate_semantic engine.rag j).confidence < confThreshold
    · rw [validate_pass_clarify _ _ _ hc hconf]
      exact ⟨fun h => absurd rfl h,
             fun _ hge => absurd hconf (not_lt.mpr hge),
             fun _ _ => ⟨rfl, rfl⟩⟩
    · rw [validate_pass _ _ _ hc hconf]
      exact ⟨fun h => absurd rfl h,
             fun _ _ => ⟨rfl, rfl⟩,
             fun _ hlt => absurd hlt hconf⟩
  · rw [validate_reject _ _ _ hc]
    exact ⟨fun _ => rfl, fun h => absurd h hc, fun h => absurd h hc⟩

/-- C2 witness: with no grammar file loaded the fallback confidence 0.90
clears the threshold, so a coherent AFF+STA input passes without
clarification. -/
theorem claim2_witness :
    (fallbackEngine.validate ⟨0, 0, 0, 0⟩
        ⟨PyValue.pystr "AFF", PyValue.pystr "STA"⟩).1.passed = true
  ∧ (fallbackEngine.validate ⟨0, 0, 0, 0⟩
        ⟨PyValue.pystr "AFF", PyValue.pystr "STA"⟩).1.needs_clarification = false :=
  (claim2_final_verdict_policy fallbackEngine ⟨0, 0, 0, 0⟩
    ⟨PyValue.pystr "AFF", PyValue.pystr "STA"⟩).2.1 (by decide) (by decide)

/-- C3: the verdict never carries more than one error, and when several
stage conditions fail at once only the first applicable stage reports:
the type check beats the function enumeration check, which beats the
case format check, which beats the constraint lookup. -/
theorem claim3_short_circuit (engine : ValidationEngine) (stats : Stats) (j : SemanticJson) :
    (engine.validate stats j).1.errors.length ≤ 1
  ∧ (j.«case».truthy = true → j.function.truthy = true → j.«case».isStr = false →
      (engine.validate stats j).1.errors = [caseTypeError j.«case»])
  ∧ (j.«case».truthy = true → j.function.truthy = true → j.«case».isStr = true →
      j.function.isStr = false →
      (engine.validate stats j).1.errors = [functionTypeError j.function])
  ∧ (∀ c f : String, j.«case» = PyValue.pystr c → j.function = PyValue.pystr f →
      c ≠ "" → f ≠ "" → f ∉ ["STA", "DYN", "MNF"] →
      (engine.validate stats j).1.errors = [functionEnumError f])
  ∧ (∀ c f : String, j.«case» = PyValue.pystr c → j.function = PyValue.pystr f →
      c ≠ "" → f ∈ ["STA", "DYN", "MNF"] → case_format_ok c = false →
      (engine.validate stats j).1.errors = [caseFormatError c]) := by
  refine ⟨?_, ?_, ?_, ?_, ?_⟩
  · rw [validate_errors_eq]
    exact validate_coherence_length _ _
  · intro h1 h2 h3
    rw [validate_errors_eq]
    exact validate_coherence_case_type _ _ h1 h2 h3
  · intro h1 h2 h3 h4
    rw [validate_errors_eq]
    exact validate_coherence_function_type _ _ h1 h2 h3 h4
  · intro c f h1 h2 h3 h4 h5
    rw [validate_errors_eq]
    exact validate_coherence_enum _ _ c f h1 h2 h3 h4 h5
  · intro c f h1 h2 h3 h4 h5
    rw [validate_errors_eq]
    exact validate_coherence_format _ _ c f h1 h2 h3 h4 h5

/-- C3 witness: with a non-string case and an invalid function at once,
only the type-check error is reported. -/
theorem claim3_witness :
    (missEngine.validate ⟨0, 0, 0, 0⟩
        ⟨PyValue.pyint 7, PyValue.pystr "BAD"⟩).1.errors =
      [caseTypeError (PyValue.pyint 7)] :=
  (claim3_short_circuit missEngine ⟨0, 0, 0, 0⟩
    ⟨PyValue.pyint 7, PyValue.pystr "BAD"⟩).2.1 (by decide) (by decide) (by decide)

set_option maxHeartbeats 1600000 in
/-- C4: for every dataset whose extracted constraints map a well-formed
case code to an EXPERIENCER record, validating that code with STA passes,
while DYN and MNF are rejected with a single COHERENCE-level error. -/
theorem claim4_experiencer_functions (d : List RawRecord)
    (rag : Option (String → Option RetrievedChunk)) (s1 s2 s3 : Stats)
    (code : String) (con : CaseConstraints)
    (hlook : (extract_case_constraints d).lookup (some code) = some con)
    (hrole : con.semantic_role = "EXPERIENCER")
    (hfmt : case_format_ok code = true) :
    ((ValidationEngine.mk (some ⟨extract_case_constraints d⟩) rag).validate s1
        ⟨PyValue.pystr code, PyValue.pystr "STA"⟩).1.passed = true
  ∧ (((ValidationEngine.mk (some ⟨extract_case_constraints d⟩) rag).validate s2
        ⟨PyValue.pystr code, PyValue.pystr "DYN"⟩).1.passed = false
    ∧ ∃ e, ((ValidationEngine.mk (some ⟨extract_case_constraints d⟩) rag).validate s2
        ⟨PyValue.pystr code, PyValue.pystr "DYN"⟩).1.errors = [e]
        ∧ e.level = ValidationLevel.COHERENCE)
  ∧ (((ValidationEngine.mk (some ⟨extract_case_constraints d⟩) rag).validate s3
        ⟨PyValue.pystr code, PyValue.pystr "MNF"⟩).1.passed = false
    ∧ ∃ e, ((ValidationEngine.mk (some ⟨extract_case_constraints d⟩) rag).validate s3
        ⟨PyValue.pystr code, PyValue.pystr "MNF"⟩).1.errors = [e]
        ∧ e.level = ValidationLevel.COHERENCE) := by
  have hmem : (some code, con) ∈ extract_case_constraints d := mem_of_lookup_eq_some hlook
  obtain ⟨ha, hb⟩ := extract_shape d _ hmem
  rw [hrole, roleRuleFor_EXPERIENCER] at ha hb
  have hSTA : con.allows_function "STA" = true := by
    rw [CaseConstraints.allows_function, ha, hb]
    decide
  have hDYN : con.allows_function "DYN" = false := by
    rw [CaseConstraints.allows_function, ha, hb]
    decide
  have hMNF : con.allows_function "MNF" = false := by
    rw [CaseConstraints.allows_function, ha, hb]
    decide
  have hcohSTA := validate_coherence_lookup ⟨extract_case_constraints d⟩
    ⟨PyValue.pystr code, PyValue.pystr "STA"⟩ code "STA" con rfl rfl (by simp) hfmt hlook
  have hcohDYN := validate_coherence_lookup ⟨extract_case_constraints d⟩
    ⟨PyValue.pystr code, PyValue.pystr "DYN"⟩ code "DYN" con rfl rfl (by simp) hfmt hlook
  have hcohMNF := validate_coherence_lookup ⟨extract_case_constraints d⟩
    ⟨PyValue.pystr code, PyValue.pystr "MNF"⟩ code "MNF" con rfl rfl (by simp) hfmt hlook
  rw [hSTA] at hcohSTA
  rw [hDYN] at hcohDYN
  rw [hMNF] at hcohMNF
  simp only [if_true, if_false, reduceIte] at hcohSTA hcohDYN hcohMNF
  refine ⟨?_, ⟨?_, ?_⟩, ⟨?_, ?_⟩⟩
  · by_cases hconf : (validate_semantic rag ⟨PyValue.pystr code, PyValue.pystr "STA"⟩).confidence
        < confThreshold
    · rw [validate_pass_clarify _ _ _ hcohSTA hconf]
    · rw [validate_pass _ _ _ hcohSTA hconf]
  · rw [validate_reject _ _ _ (by rw [hcohDYN]; exact List.cons_ne_nil _ _)]
  · rw [validate_reject _ _ _ (by rw [hcohDYN]; exact List.cons_ne_nil _ _)]
    exact ⟨_, hcohDYN, rfl⟩
  · rw [validate_reject _ _ _ (by rw [hcohMNF]; exact List.cons_ne_nil _ _)]
  · rw [validate_reject _ _ _ (by rw [hcohMNF]; exact List.cons_ne_nil _ _)]
    exact ⟨_, hcohMNF, rfl⟩

/-- C4 witness: the AFF record (EXPERIENCER) accepts STA and rejects DYN. -/
theorem claim4_witness :
    ((ValidationEngine.mk (some ⟨extract_case_constraints [affRecord]⟩) Option.none).validate
        ⟨0, 0, 0, 0⟩ ⟨PyValue.pystr "AFF", PyValue.pystr "STA"⟩).1.passed = true
  ∧ ((ValidationEngine.mk (some ⟨extract_case_constraints [affRecord]⟩) Option.none).validate
        ⟨0, 0, 0, 0⟩ ⟨PyValue.pystr "AFF", PyValue.pystr "DYN"⟩).1.passed = false :=
  ⟨(claim4_experiencer_functions [affRecord] Option.none ⟨0, 0, 0, 0⟩ ⟨0, 0, 0, 0⟩ ⟨0, 0, 0, 0⟩
      "AFF" affConstraint (by decide) (by decide) (by decide)).1,
   (claim4_experiencer_functions [affRecord] Option.none ⟨0, 0, 0, 0⟩ ⟨0, 0, 0, 0⟩ ⟨0, 0, 0, 0⟩
      "AFF" affConstraint (by decide) (by decide) (by decide)).2.1.1⟩

/-- C7 counterexample: the input `{case: 0, function: "STA"}` has a
present, non-null, non-text case, yet `validate` passes it with no
errors — Python truthiness makes the presence check treat `0` as
missing, so no TYPE error is ever produced. -/
theorem claim7_counterexample :
    (missEngine.validate ⟨0, 0, 0, 0⟩ ⟨PyValue.pyint 0, PyValue.pystr "STA"⟩).1.passed = true
  ∧ (missEngine.validate ⟨0, 0, 0, 0⟩ ⟨PyValue.pyint 0, PyValue.pystr "STA"⟩).1.errors = [] := by
  decide

/-- C7 as amended: for every input whose case field is truthy (so not
`None`, `0`, `False` or empty) and not a text value, with a truthy
function field, `validate` rejects with the single type error naming the
case slot and the value's actual kind, and the constraint lookup never
runs. -/
theorem claim7_amended_type_error (engine : ValidationEngine) (stats : Stats) (j : SemanticJson)
    (hc : j.«case».truthy = true) (hcs : j.«case».isStr = false)
    (hf : j.function.truthy = true) :
    (engine.validate stats j).1.passed = false
  ∧ (engine.validate stats j).1.errors = [caseTypeError j.«case»]
  ∧ (caseTypeError j.«case»).slot = some "case"
  ∧ (caseTypeError j.«case»).message = "Case must be a string, got " ++ j.«case».typeName := by
  have hcoh := validate_coherence_case_type engine.cooccurrence_rules j hc hf hcs
  have hne : validate_coherence engine.cooccurrence_rules j ≠ [] := by
    rw [hcoh]; exact List.cons_ne_nil _ _
  rw [validate_reject _ _ _ hne]
  exact ⟨rfl, hcoh, rfl, rfl⟩

/-- C7 witness: a non-zero numeric case is rejected with the type error. -/
theorem claim7_witness :
    (missEngine.validate ⟨0, 0, 0, 0⟩
        ⟨PyValue.pyint 123, PyValue.pystr "STA"⟩).1.passed = false
  ∧ (missEngine.validate ⟨0, 0, 0, 0⟩
        ⟨PyValue.pyint 123, PyValue.pystr "STA"⟩).1.errors =
      [caseTypeError (PyValue.pyint 123)] :=
  ⟨(claim7_amended_type_error missEngine ⟨0, 0, 0, 0⟩
      ⟨PyValue.pyint 123, PyValue.pystr "STA"⟩ (by decide) (by decide) (by decide)).1,
   (claim7_amended_type_error missEngine ⟨0, 0, 0, 0⟩
      ⟨PyValue.pyint 123, PyValue.pystr "STA"⟩ (by decide) (by decide) (by decide)).2.1⟩

/-- C8 counterexample: a pass with confidence below the threshold
(unknown case XYZ against a missing retriever) increments both `passed`
and `clarification_needed` — not exactly one of the three outcome
counters. -/
theorem claim8_counterexample :
    ((missEngine.validate ⟨0, 0, 0, 0⟩
        ⟨PyValue.pystr "XYZ", PyValue.pystr "STA"⟩).2 = ⟨1, 1, 0, 1⟩)
  ∧ ¬ ((missEngine.validate ⟨0, 0, 0, 0⟩
        ⟨PyValue.pystr "XYZ", PyValue.pystr "STA"⟩).2.passed
      + (missEngine.validate ⟨0, 0, 0, 0⟩
        ⟨PyValue.pystr "XYZ", PyValue.pystr "STA"⟩).2.rejected
      + (missEngine.validate ⟨0, 0, 0, 0⟩
        ⟨PyValue.pystr "XYZ", PyValue.pystr "STA"⟩).2.clarification_needed = 1) := by
  decide

/-- C8 as amended: every call increments `total_validations` by one; a
rejection additionally increments `rejected` only; a pass without
clarification increments `passed` only; a pass flagged for clarification
increments both `passed` and `clarification_needed`. -/
theorem claim8_stats_update (engine : ValidationEngine) (stats : Stats) (j : SemanticJson) :
    ((engine.validate stats j).2.total_validations = stats.total_validations + 1)
  ∧ ((engine.validate stats j).1.passed = false →
      (engine.validate stats j).2 =
        { stats with total_validations := stats.total_validations + 1,
                     rejected := stats.rejected + 1 })
  ∧ ((engine.validate stats j).1.passed = true →
      (engine.validate stats j).1.needs_clarification = false →
      (engine.validate stats j).2 =
        { stats with total_validations := stats.total_validations + 1,
                     passed := stats.passed + 1 })
  ∧ ((engine.validate stats j).1.passed = true →
      (engine.validate stats j).1.needs_clarification = true →
      (engine.validate stats j).2 =
        { stats with total_validations := stats.total_validations + 1,
                     passed := stats.passed + 1,
                     clarification_needed := stats.clarification_needed + 1 }) := by
  by_cases hc : validate_coherence engine.cooccurrence_rules j = []
  · by_cases hconf : (validate_semantic engine.rag j).confidence < confThreshold
    · rw [validate_pass_clarify _ _ _ hc hconf]
      exact ⟨rfl, fun h => by simp at h, fun _ h => by simp at h, fun _ _ => rfl⟩
    · rw [validate_pass _ _ _ hc hconf]
      exact ⟨rfl, fun h => by simp at h, fun _ _ => rfl, fun _ h => by simp at h⟩
  · rw [validate_reject _ _ _ hc]
    exact ⟨rfl, fun _ => rfl, fun h => by simp at h, fun h => by simp at h⟩

/-- C8 witness: a rejected AFF+DYN call increments the total and the
rejected counter. -/
theorem claim8_witness :
    (missEngine.validate ⟨0, 0, 0, 0⟩
        ⟨PyValue.pystr "AFF", PyValue.pystr "DYN"⟩).2 = ⟨1, 0, 1, 0⟩ :=
  (claim8_stats_update missEngine ⟨0, 0, 0, 0⟩
    ⟨PyValue.pystr "AFF", PyValue.pystr "DYN"⟩).2.1 (by decide)

end IthkuilCopilot
